import Mathlib

/-!
Verification development for the LinkedIn posts fetcher (src/main.py).

The repository has two pieces of logic:
  * `fetch_all_posts` : a bounded pagination loop over an external REST API,
    with retry on timeout / rate limit and early termination on errors;
  * `process_posts_for_excel` : a normalizer flattening heterogeneous
    JSON-like post records into a fixed-column tabular record,
    helped by `get_profile_name_from_url`.

The embedding models Python JSON-like values (`JVal`), Python truthiness,
`dict.get`, iteration, and the ways the source can raise an uncaught
exception (`Option`-valued operations, `none` = uncaught exception).
-/

/-- A Python JSON-like value, as produced by `response.json()`.
`null` is Python `None`. -/
inductive JVal where
  | null
  | jbool (b : Bool)
  | jnum (n : Int)
  | jstr (s : String)
  | jarr (xs : List JVal)
  | jobj (kvs : List (String × JVal))

/-- Python truthiness of a JSON-like value (`bool(v)`). -/
def JVal.truthy : JVal → Bool
  | .null => false
  | .jbool b => b
  | .jnum n => n != 0
  | .jstr s => s != ""
  | .jarr xs => !xs.isEmpty
  | .jobj kvs => !kvs.isEmpty

/-- Is the value a Python `dict`? (`isinstance(v, dict)`). -/
def JVal.isObj : JVal → Bool
  | .jobj _ => true
  | _ => false

/-- First binding of a key in an object's field list (Python dicts have
unique keys; JSON objects are modelled as association lists). -/
def jlookup (kvs : List (String × JVal)) (k : String) : Option JVal :=
  (kvs.find? (fun kv => kv.1 == k)).map (fun kv => kv.2)

/-- Python `d.get(k)`: `None` when the key is absent.  Only ever applied
to values the source has established to be dicts. -/
def JVal.get (v : JVal) (k : String) : JVal :=
  match v with
  | .jobj kvs => (jlookup kvs k).getD JVal.null
  | _ => JVal.null

/-- Python `d.get(k, dflt)`: the default only applies when the key is
absent (a key bound to `None` still yields `None`).  Only ever applied
to values the source has established to be dicts. -/
def JVal.getD (v : JVal) (k : String) (dflt : JVal) : JVal :=
  match v with
  | .jobj kvs => (jlookup kvs k).getD dflt
  | _ => dflt

/-- Python `v.get(k)` on a value that is *not known* to be a dict:
raises `AttributeError` (= `none`) unless `v` is a dict. -/
def pyGetAttr : JVal → String → Option JVal
  | .jobj kvs, k => some ((jlookup kvs k).getD JVal.null)
  | _, _ => none

/-- Python `x or d`. -/
def pyOr (x d : JVal) : JVal := if x.truthy then x else d

/-- Python iteration `for e in v`: lists yield elements, strings yield
one-character strings, dicts yield their keys; other values raise
`TypeError` (= `none`). -/
def pyIter : JVal → Option (List JVal)
  | .jarr xs => some xs
  | .jstr s => some (s.toList.map (fun c => JVal.jstr (String.mk [c])))
  | .jobj kvs => some (kvs.map (fun kv => JVal.jstr kv.1))
  | _ => none

/-- A value used where Python requires a `str`: anything else raises
`TypeError` (= `none`). -/
def asStr : JVal → Option String
  | .jstr s => some s
  | _ => none

/-- Python `(x or '')` subsequently used in string concatenation:
falsy values give `''`, truthy strings give themselves, truthy
non-strings raise `TypeError` (= `none`). -/
def pyOrEmptyStr (x : JVal) : Option String :=
  if x.truthy then asStr x else some ""

/-- ASCII model of Python `str.lower` (all strings the source lowercases
are ASCII API status messages). -/
def lowerChar (c : Char) : Char :=
  if 'A' ≤ c && c ≤ 'Z' then Char.ofNat (c.toNat + 32) else c

/-- ASCII model of Python `str.lower`. -/
def lowerStr (s : String) : String := String.mk (s.toList.map lowerChar)

/-- Does `pat` occur as a contiguous run inside `s`?  (Python `pat in s`
on strings.) -/
def containsSub (pat : List Char) : List Char → Bool
  | [] => pat.isEmpty
  | c :: rest => pat.isPrefixOf (c :: rest) || containsSub pat rest

/-- Python `pat in s` for strings. -/
def containsStr (s pat : String) : Bool := containsSub pat.toList s.toList

/-- Python `pat in v` where `pat` is a string: substring test on strings,
membership on lists (element equal to the string `pat`), key membership
on dicts; raises `TypeError` (= `none`) on numbers and booleans. -/
def pyContainsStr (pat : String) : JVal → Option Bool
  | .jstr s => some (containsStr s pat)
  | .jarr xs => some (xs.any (fun v => match v with | .jstr s => s == pat | _ => false))
  | .jobj kvs => some (kvs.any (fun kv => kv.1 == pat))
  | _ => none

/-- One step of `re.search` for a pattern `marker([^/]+)`: at each start
position, the literal `marker` must match and be followed by at least one
character other than `/`; the capture is the maximal such run.  The
search scans start positions left to right. -/
def extractSegAfter (marker : List Char) : List Char → Option (List Char)
  | [] => none
  | c :: rest =>
    if marker.isPrefixOf (c :: rest) then
      let seg := ((c :: rest).drop marker.length).takeWhile (fun ch => ch ≠ '/')
      if seg.isEmpty then extractSegAfter marker rest else some seg
    else extractSegAfter marker rest

/-- `get_profile_name_from_url` (src/main.py lines 10-20): extract a
profile or company identifier from a LinkedIn URL via the patterns
`/in/([^/]+)` then `/company/([^/]+)`, with an `UnknownProfile`
sentinel.  The Python `if not linkedin_url` guard is the empty-string
test (call sites pass strings). -/
def get_profile_name_from_url (linkedin_url : String) : String :=
  if linkedin_url = "" then "UnknownProfile"
  else
    match extractSegAfter "/in/".toList linkedin_url.toList with
    | some seg => String.mk seg
    | none =>
      match extractSegAfter "/company/".toList linkedin_url.toList with
      | some seg => String.mk seg
      | none => "UnknownProfile"

/-!
## Pagination Fetcher (`fetch_all_posts`, src/main.py lines 22-112)

The loop is driven by a simulated environment: `script n` is the outcome
of the `n`-th HTTP GET (0-based).  Outcomes model the source's exception
structure: `requests.exceptions.Timeout`, any other
`requests.exceptions.RequestException` (including `raise_for_status`
errors), `ValueError` from `response.json()`, and a decoded JSON body.
-/

/-- Outcome of one simulated `requests.get` + `raise_for_status` + `.json()`. -/
inductive ApiOutcome where
  | timeout
  | transportError
  | decodeError
  | response (body : JVal)

/-- One issued HTTP GET: endpoint, headers, and the `querystring` dict
(src/main.py lines 36-39 and 49-54).  `pagination_token` is present
exactly when `current_pagination_token` was truthy. -/
structure Request where
  api_url : String
  headers : List (String × String)
  linkedin_url : String
  request_type : String
  pagination_token : Option JVal

/-- Build the request for one iteration (headers from lines 36-39,
querystring from lines 49-54). -/
def mkRequest (api api_key profile_url : String) (token : JVal) : Request :=
  { api_url := api
  , headers := [("x-rapidapi-key", api_key),
                ("x-rapidapi-host", "fresh-linkedin-profile-data.p.rapidapi.com")]
  , linkedin_url := profile_url
  , request_type := "posts"
  , pagination_token := if token.truthy then some token else none }

/-- Result of `fetch_all_posts`: the ordered log of issued requests, and
`some` accumulated records on normal return, `none` if an uncaught
exception escaped the loop body. -/
structure FetchResult where
  requests : List Request
  returned : Option (List JVal)

/-- The `stop_messages` list (src/main.py line 79). -/
def stop_messages : List String :=
  ["profile not found", "profile is private", "could not find linkedin profile",
   "company not found"]

/-- What one loop iteration does after its request resolves. -/
inductive IterAction where
  | retry
  | stop (acc : List JVal)
  | crash
  | next (acc : List JVal) (token : JVal)

/-- The body of one loop iteration after the request (src/main.py lines
60-108), as a function of the incremented page counter `pc1`
(`page_count` after line 45), the accumulator, and the request outcome:

* timeout (line 60): sleep 10 and `continue` = `retry`;
* other transport error / JSON decode error (lines 64-69): `break`;
* decoded body: read `message` with default `"Unknown error from API"`
  (line 71; crashes when the body is not a dict or the message not a
  string, since `.lower()` is called on it);
  - non-`"ok"` containing `"rate limit"` (line 74): sleep 60, `continue`;
  - non-`"ok"` containing a stop message (line 80): `break`;
  - any other non-`"ok"` (lines 84-87): `break` (both arms break);
  - `"ok"`: read `data` with default `[]` (line 89); falsy → `break`
    (lines 91-96); otherwise extend the accumulator (line 98, crashes on
    non-iterable data), read `paging` with default `{}` and its
    `pagination_token` (lines 101-102, crashes when `paging` is present
    but not a dict); falsy token → `break` (lines 104-106); otherwise
    sleep 1.5 and continue to the next page with the new token. -/
def classifyOutcome (pc1 : Nat) (acc : List JVal) : ApiOutcome → IterAction
  | .timeout => .retry
  | .transportError => .stop acc
  | .decodeError => .stop acc
  | .response body =>
    match body with
    | JVal.jobj _ =>
      match body.getD "message" (JVal.jstr "Unknown error from API") with
      | JVal.jstr m =>
        let lm := lowerStr m
        if lm ≠ "ok" then
          if containsStr lm "rate limit" then .retry
          else if stop_messages.any (fun sm => containsStr lm sm) then .stop acc
          else if pc1 > 1 && !(body.get "data").truthy then .stop acc
          else .stop acc
        else
          let posts_on_page := body.getD "data" (JVal.jarr [])
          if !posts_on_page.truthy then .stop acc
          else
            match pyIter posts_on_page with
            | none => .crash
            | some items =>
              match pyGetAttr (body.getD "paging" (JVal.jobj [])) "pagination_token" with
              | none => .crash
              | some tok =>
                if !tok.truthy then .stop (acc ++ items)
                else .next (acc ++ items) tok
      | _ => .crash
    | _ => .crash

/-- The `while page_count < max_pages` loop (src/main.py lines 44-108).
State: remaining `fuel`, `all_posts_data`, `current_pagination_token`,
`page_count` (its value at the loop test, line 44), and the log of
requests issued so far.  `fuel` is a termination device only: every
iteration increments `page_count` by one, so with `fuel = max_pages -
page_count` (as `fetch_all_posts` arranges) the `fuel = 0` case
coincides with the loop test failing. -/
def fetch_loop (script : Nat → ApiOutcome) (api api_key profile_url : String)
    (max_pages : Nat) : Nat → List JVal → JVal → Nat → List Request → FetchResult
  | 0, acc, _token, _pc, reqs => { requests := reqs, returned := some acc }
  | fuel+1, acc, token, page_count, reqs =>
    if page_count < max_pages then
      let reqs' := reqs ++ [mkRequest api api_key profile_url token]
      match classifyOutcome (page_count + 1) acc (script reqs.length) with
      | .retry => fetch_loop script api api_key profile_url max_pages fuel acc token (page_count + 1) reqs'
      | .stop acc' => { requests := reqs', returned := some acc' }
      | .crash => { requests := reqs', returned := none }
      | .next acc' tok => fetch_loop script api api_key profile_url max_pages fuel acc' tok (page_count + 1) reqs'
    else { requests := reqs, returned := some acc }

/-- `fetch_all_posts` (src/main.py lines 22-112): pick the endpoint from
`post_type` (lines 31-34), then run the loop from the empty accumulator,
no pagination token, and `page_count = 0`. -/
def fetch_all_posts (script : Nat → ApiOutcome) (profile_url api_key : String)
    (max_pages : Nat) (post_type : String) : FetchResult :=
  let API_URL :=
    if post_type = "Company Posts" then
      "https://fresh-linkedin-profile-data.p.rapidapi.com/get-company-posts"
    else
      "https://fresh-linkedin-profile-data.p.rapidapi.com/get-profile-posts"
  fetch_loop script API_URL api_key profile_url max_pages max_pages [] JVal.null 0 []

/-!
## Record Normalizer (`process_posts_for_excel`, src/main.py lines 114-198)

The per-record work is split, as in the source, into the local-variable
computations (`postVals`, lines 126-161) and the output dict literal
(`mkRecord`, lines 163-196).  `postVals` is `Option`-valued: `none`
models an uncaught `TypeError`/`AttributeError` (e.g. a truthy non-dict
`poster`, or a truthy non-string name used in concatenation).
-/

/-- Python `s.split(m)` keeps the text after the first occurrence of `m`:
drop through the first occurrence, `none` when there is none. -/
def dropThroughFirst (m : List Char) : List Char → Option (List Char)
  | [] => none
  | c :: rest =>
    if m.isPrefixOf (c :: rest) then some ((c :: rest).drop m.length)
    else dropThroughFirst m rest

/-- Text after the last occurrence of `m` in `s` (Python
`s.split(m)[-1]`), by repeatedly dropping through the first occurrence;
the fuel `s.length` suffices since `m` is nonempty at every call site. -/
def afterLastSplitAux (m : List Char) : Nat → List Char → List Char
  | 0, s => s
  | fuel+1, s =>
    match dropThroughFirst m s with
    | some t => afterLastSplitAux m fuel t
    | none => s

/-- `post_url.split("urn:li:activity:")[-1].split("/")[0]`
(src/main.py line 156). -/
def activity_from_post_url (s : String) : String :=
  String.mk ((afterLastSplitAux "urn:li:activity:".toList s.toList.length s.toList).takeWhile
    (fun c => c ≠ '/'))

/-- Author-name fallback (src/main.py lines 145-150): when neither name
is truthy and `poster_linkedin_url` is truthy, derive a display name
from the URL (crashes when the URL is a truthy non-string, since
`re.search` requires a string) and default a missing headline to
`"Company Page"` when the URL contains the substring `"company"`.
Returns the (possibly updated) first name and headline. -/
def author_name_headline (first last headline author_linkedin_url : JVal) :
    Option (JVal × JVal) :=
  if !(first.truthy || last.truthy) && author_linkedin_url.truthy then do
    let u ← asStr author_linkedin_url
    let derived := get_profile_name_from_url u
    let first1 := if derived ≠ "UnknownProfile" then JVal.jstr derived else first
    let headline1 :=
      if !headline.truthy && containsStr u "company" then JVal.jstr "Company Page"
      else headline
    pure (first1, headline1)
  else pure (first, headline)

/-- Activity-identifier extraction (src/main.py lines 152-158): when
`post_url` is truthy and contains `"urn:li:activity:"`, the segment
after the last marker up to the next `/`.  A truthy non-string
`post_url` for which the membership test succeeds crashes at `.split`
(the `except IndexError` in the source is unreachable: `split` always
returns a nonempty list). -/
def activity_from_post (post_url_val : JVal) : Option JVal :=
  if post_url_val.truthy then do
    let c ← pyContainsStr "urn:li:activity:" post_url_val
    if c then do
      let s ← asStr post_url_val
      pure (JVal.jstr (activity_from_post_url s))
    else pure JVal.null
  else pure JVal.null

/-- The local variables of one iteration of `process_posts_for_excel`
(src/main.py lines 126-161) together with the values computed inside the
record literal (lines 163-196).  `activity_urn_str` and
`original_content_urn_if_reshared` are locals the record literal never
reads. -/
structure PostVals where
  post_type_display : String
  author_first_s : String
  author_last_s : String
  author_headline : JVal
  activity_urn_str : JVal
  original_content_urn_if_reshared : JVal
  text : JVal
  resharer_comment : JVal
  time : JVal
  num_likes : JVal
  num_comments : JVal
  num_reactions : JVal
  num_reposts : JVal
  num_appreciations : JVal
  num_empathy : JVal
  num_entertainments : JVal
  num_interests : JVal
  num_praises : JVal
  image_field : JVal
  video_stream_url : JVal
  video_duration : JVal
  document_title : JVal
  document_url : JVal
  document_page_count : JVal
  article_title : JVal
  article_subtitle : JVal
  article_target : JVal
  article_description : JVal
  rs_num_likes : JVal
  rs_num_comments : JVal
  rs_num_reactions : JVal
  rs_num_reposts : JVal
  rs_num_appreciations : JVal
  rs_num_interests : JVal
  rs_num_praises : JVal

/-- The author-related locals (src/main.py lines 139-150): the four
`poster_info.get` reads (each crashes when `poster_info` is a truthy
non-dict) followed by the URL fallback of lines 145-150. -/
def authorVals (poster_info author_linkedin_url : JVal) : Option (JVal × JVal × JVal) := do
  let author_first_name ← pyGetAttr poster_info "first"
  let author_last_name ← pyGetAttr poster_info "last"
  let author_headline ← pyGetAttr poster_info "headline"
  let _author_public_id ← pyGetAttr poster_info "public_id"
  let (author_first_name, author_headline) ←
    author_name_headline author_first_name author_last_name author_headline
      author_linkedin_url
  pure (author_first_name, author_last_name, author_headline)

/-- `"\n".join(image_urls) if image_urls else None` (src/main.py
line 179): joining crashes when a collected URL is a truthy non-string. -/
def imageField (image_urls : List JVal) : Option JVal :=
  if image_urls.isEmpty then pure JVal.null
  else do
    let strs ← image_urls.mapM asStr
    pure (JVal.jstr (String.intercalate "\n" strs))

/-- The video and document reads of the dict literal (src/main.py
lines 180-184): `stream_url`, `duration`, `title`, `url`, `page_count`. -/
def mediaVals (video_info document_info : JVal) : Option (JVal × JVal × JVal × JVal × JVal) := do
  let video_stream_url ← pyGetAttr video_info "stream_url"
  let video_duration ← pyGetAttr video_info "duration"
  let document_title ← pyGetAttr document_info "title"
  let document_url ← pyGetAttr document_info "url"
  let document_page_count ← pyGetAttr document_info "page_count"
  pure (video_stream_url, video_duration, document_title, document_url, document_page_count)

/-- The seven `repost_stats_info.get(...) if post.get("reshared") else
None` reads of the dict literal (src/main.py lines 189-195).  Python
evaluates the conditional lazily, so `repost_stats_info` is only read
(and can only crash) when the record is a reshare. -/
def repostStatsVals (reshared : Bool) (repost_stats_info : JVal) :
    Option (JVal × JVal × JVal × JVal × JVal × JVal × JVal) := do
  let rs_num_likes ← if reshared then pyGetAttr repost_stats_info "num_likes" else pure JVal.null
  let rs_num_comments ← if reshared then pyGetAttr repost_stats_info "num_comments" else pure JVal.null
  let rs_num_reactions ← if reshared then pyGetAttr repost_stats_info "num_reactions" else pure JVal.null
  let rs_num_reposts ← if reshared then pyGetAttr repost_stats_info "num_reposts" else pure JVal.null
  let rs_num_appreciations ← if reshared then pyGetAttr repost_stats_info "num_appreciations" else pure JVal.null
  let rs_num_interests ← if reshared then pyGetAttr repost_stats_info "num_interests" else pure JVal.null
  let rs_num_praises ← if reshared then pyGetAttr repost_stats_info "num_praises" else pure JVal.null
  pure (rs_num_likes, rs_num_comments, rs_num_reactions, rs_num_reposts,
    rs_num_appreciations, rs_num_interests, rs_num_praises)

/-- Compute the per-record values (src/main.py lines 126-161 and the
expressions inside the dict literal).  `post` is a dict (the caller
checked `isinstance(post, dict)`).  `.get(k, d) or d` collapses to a
truthiness choice because an absent key yields falsy `None`. -/
def postVals (queried_profile_name : String) (post : JVal) : Option PostVals := do
  let poster_info := pyOr (post.getD "poster" (JVal.jobj [])) (JVal.jobj [])
  let image_urls_list := pyOr (post.getD "images" (JVal.jarr [])) (JVal.jarr [])
  let items ← pyIter image_urls_list
  let image_urls := (items.filter (fun img => img.isObj && (img.get "url").truthy)).map
    (fun img => img.get "url")
  let video_info := pyOr (post.getD "video" (JVal.jobj [])) (JVal.jobj [])
  let document_info := pyOr (post.getD "document" (JVal.jobj [])) (JVal.jobj [])
  let repost_stats_info := pyOr (post.getD "repost_stats" (JVal.jobj [])) (JVal.jobj [])
  let reshared := (post.get "reshared").truthy
  let post_type_display :=
    if reshared then "Reshare by " ++ queried_profile_name else "Original Post"
  let original_content_urn := if reshared then post.get "urn" else JVal.null
  let (author_first_name, author_last_name, author_headline) ←
    authorVals poster_info (post.get "poster_linkedin_url")
  let activity0 ← activity_from_post (post.get "post_url")
  let activity_urn_str :=
    if reshared && (post.get "repost_urn").truthy && !activity0.truthy then
      post.get "repost_urn"
    else activity0
  let firstS ← pyOrEmptyStr author_first_name
  let lastS ← pyOrEmptyStr author_last_name
  let image_field ← imageField image_urls
  let (video_stream_url, video_duration, document_title, document_url, document_page_count) ←
    mediaVals video_info document_info
  let (rs_num_likes, rs_num_comments, rs_num_reactions, rs_num_reposts,
    rs_num_appreciations, rs_num_interests, rs_num_praises) ←
    repostStatsVals reshared repost_stats_info
  pure
    { post_type_display := post_type_display
    , author_first_s := firstS
    , author_last_s := lastS
    , author_headline := author_headline
    , activity_urn_str := activity_urn_str
    , original_content_urn_if_reshared := original_content_urn
    , text := post.get "text"
    , resharer_comment := if reshared then post.get "resharer_comment" else JVal.null
    , time := post.get "time"
    , num_likes := post.get "num_likes"
    , num_comments := post.get "num_comments"
    , num_reactions := post.get "num_reactions"
    , num_reposts := post.get "num_reposts"
    , num_appreciations := post.get "num_appreciations"
    , num_empathy := post.get "num_empathy"
    , num_entertainments := post.get "num_entertainments"
    , num_interests := post.get "num_interests"
    , num_praises := post.get "num_praises"
    , image_field := image_field
    , video_stream_url := video_stream_url
    , video_duration := video_duration
    , document_title := document_title
    , document_url := document_url
    , document_page_count := document_page_count
    , article_title := post.get "article_title"
    , article_subtitle := post.get "article_subtitle"
    , article_target := post.get "article_target_url"
    , article_description := post.get "article_description"
    , rs_num_likes := rs_num_likes
    , rs_num_comments := rs_num_comments
    , rs_num_reactions := rs_num_reactions
    , rs_num_reposts := rs_num_reposts
    , rs_num_appreciations := rs_num_appreciations
    , rs_num_interests := rs_num_interests
    , rs_num_praises := rs_num_praises }

/-- The output dict literal (src/main.py lines 163-196), as an ordered
key-value list.  The author name is the concatenation
`(first or '') + ' ' + (last or '')` from line 165.  Note that the
locals `activity_urn_str` and `original_content_urn_if_reshared` are not
read here, exactly as in the source. -/
def mkRecord (v : PostVals) : List (String × JVal) :=
  [ ("Post Type", JVal.jstr v.post_type_display)
  , ("Content Author Name", JVal.jstr (v.author_first_s ++ " " ++ v.author_last_s))
  , ("Content Author Headline", v.author_headline)
  , ("Content Text (Original or Shared)", v.text)
  , ("Resharer Comment (by Queried Profile)", v.resharer_comment)
  , ("Time Ago", v.time)
  , ("Engagement Likes (on this item)", v.num_likes)
  , ("Engagement Comments (on this item)", v.num_comments)
  , ("Engagement Reactions (on this item)", v.num_reactions)
  , ("Engagement Reposts (of this item)", v.num_reposts)
  , ("Engagement Appreciations", v.num_appreciations)
  , ("Engagement Empathy", v.num_empathy)
  , ("Engagement Entertainments", v.num_entertainments)
  , ("Engagement Interests", v.num_interests)
  , ("Engagement Praises", v.num_praises)
  , ("Image URLs", v.image_field)
  , ("Video URL", v.video_stream_url)
  , ("Video Duration (ms)", v.video_duration)
  , ("Document Title", v.document_title)
  , ("Document URL", v.document_url)
  , ("Document Page Count", v.document_page_count)
  , ("Article Title", v.article_title)
  , ("Article Subtitle", v.article_subtitle)
  , ("Article Target URL", v.article_target)
  , ("Article Description", v.article_description)
  , ("Original Post Likes (if Reshared)", v.rs_num_likes)
  , ("Original Post Comments (if Reshared)", v.rs_num_comments)
  , ("Original Post Reactions (if Reshared)", v.rs_num_reactions)
  , ("Original Post Reposts (if Reshared)", v.rs_num_reposts)
  , ("Original Post Appreciations (if Reshared)", v.rs_num_appreciations)
  , ("Original Post Interests (if Reshared)", v.rs_num_interests)
  , ("Original Post Praises (if Reshared)", v.rs_num_praises) ]

/-- The fixed output field set, in order. -/
def excelFieldNames : List String :=
  [ "Post Type", "Content Author Name", "Content Author Headline"
  , "Content Text (Original or Shared)", "Resharer Comment (by Queried Profile)"
  , "Time Ago", "Engagement Likes (on this item)", "Engagement Comments (on this item)"
  , "Engagement Reactions (on this item)", "Engagement Reposts (of this item)"
  , "Engagement Appreciations", "Engagement Empathy", "Engagement Entertainments"
  , "Engagement Interests", "Engagement Praises", "Image URLs", "Video URL"
  , "Video Duration (ms)", "Document Title", "Document URL", "Document Page Count"
  , "Article Title", "Article Subtitle", "Article Target URL", "Article Description"
  , "Original Post Likes (if Reshared)", "Original Post Comments (if Reshared)"
  , "Original Post Reactions (if Reshared)", "Original Post Reposts (if Reshared)"
  , "Original Post Appreciations (if Reshared)", "Original Post Interests (if Reshared)"
  , "Original Post Praises (if Reshared)" ]

/-- One record of `process_posts_for_excel`'s loop body for a dict input. -/
def processPost (queried_profile_name : String) (post : JVal) :
    Option (List (String × JVal)) :=
  (postVals queried_profile_name post).map mkRecord

/-- `process_posts_for_excel` (src/main.py lines 114-198): derive the
queried profile's display name once, then process each record, skipping
non-dict items; an uncaught exception in any record propagates. -/
def process_posts_for_excel (raw_posts_data : List JVal)
    (queried_profile_url : String) : Option (List (List (String × JVal))) :=
  let queried_profile_name := get_profile_name_from_url queried_profile_url
  let rec go : List JVal → Option (List (List (String × JVal)))
    | [] => some []
    | post :: rest =>
      if post.isObj then do
        let r ← processPost queried_profile_name post
        let rs ← go rest
        pure (r :: rs)
      else go rest
  go raw_posts_data

/-- Value of a field of a produced record. -/
def getField (rec : List (String × JVal)) (k : String) : Option JVal :=
  (rec.find? (fun kv => kv.1 == k)).map (fun kv => kv.2)

/-!
## Concrete inputs used by the theorems below
-/

/-- A decoded body with status `"ok"`, a data array, and no paging. -/
def okBody (ds : List JVal) : JVal :=
  JVal.jobj [("message", JVal.jstr "ok"), ("data", JVal.jarr ds)]

/-- A decoded body with status `"ok"`, a data array, and a pagination
token in its paging metadata. -/
def okBodyTok (ds : List JVal) (tok : JVal) : JVal :=
  JVal.jobj [("message", JVal.jstr "ok"), ("data", JVal.jarr ds),
             ("paging", JVal.jobj [("pagination_token", tok)])]

/-- A decoded body whose status message signals a rate limit. -/
def rateLimitBody : JVal := JVal.jobj [("message", JVal.jstr "Rate limit exceeded")]

/-- Environment: two timeouts, then a success with one record and no
further pages. -/
def c1script : Nat → ApiOutcome := fun n =>
  if n ≤ 1 then ApiOutcome.timeout else ApiOutcome.response (okBody [JVal.jnum 7])

/-- Environment: a rate-limited response, then a success with one record. -/
def c3script : Nat → ApiOutcome := fun n =>
  if n = 0 then ApiOutcome.response rateLimitBody
  else ApiOutcome.response (okBody [JVal.jnum 7])

/-- Environment: every response is a success carrying a pagination token. -/
def c4script : Nat → ApiOutcome := fun _ =>
  ApiOutcome.response (okBodyTok [JVal.jnum 7] (JVal.jstr "TOK"))

/-- Environment: every request fails with a non-timeout transport error. -/
def c7script : Nat → ApiOutcome := fun _ => ApiOutcome.transportError

/-- Is the value Python `None`? -/
def isNull : JVal → Bool
  | JVal.null => true
  | _ => false

/-- Is the value the string `"999"`? -/
def isStr999 : JVal → Bool
  | JVal.jstr s => s == "999"
  | _ => false

/-- A reshare whose post URL carries no `"urn:li:activity:"` marker and
whose explicit repost identifier is `"999"`. -/
def post6 : JVal := JVal.jobj
  [("reshared", JVal.jbool true), ("repost_urn", JVal.jstr "999"),
   ("post_url", JVal.jstr "https://www.linkedin.com/feed/update/xyz")]

/-- A record with no poster names and a profile-shaped author URL whose
path segment happens to contain the substring `"company"`. -/
def post9 : JVal := JVal.jobj
  [("poster_linkedin_url", JVal.jstr "https://www.linkedin.com/in/mycompany")]

/-- The values `process_posts_for_excel` computes for the empty record
(a dict with no keys): all source data missing. -/
def c5vals : PostVals :=
  { post_type_display := "Original Post"
  , author_first_s := ""
  , author_last_s := ""
  , author_headline := JVal.null
  , activity_urn_str := JVal.null
  , original_content_urn_if_reshared := JVal.null
  , text := JVal.null
  , resharer_comment := JVal.null
  , time := JVal.null
  , num_likes := JVal.null
  , num_comments := JVal.null
  , num_reactions := JVal.null
  , num_reposts := JVal.null
  , num_appreciations := JVal.null
  , num_empathy := JVal.null
  , num_entertainments := JVal.null
  , num_interests := JVal.null
  , num_praises := JVal.null
  , image_field := JVal.null
  , video_stream_url := JVal.null
  , video_duration := JVal.null
  , document_title := JVal.null
  , document_url := JVal.null
  , document_page_count := JVal.null
  , article_title := JVal.null
  , article_subtitle := JVal.null
  , article_target := JVal.null
  , article_description := JVal.null
  , rs_num_likes := JVal.null
  , rs_num_comments := JVal.null
  , rs_num_reactions := JVal.null
  , rs_num_reposts := JVal.null
  , rs_num_appreciations := JVal.null
  , rs_num_interests := JVal.null
  , rs_num_praises := JVal.null }

/-!
## Helper lemmas: the fetch loop
-/

/-- Unfolding the loop when a timeout or rate limit retries the
iteration: the state is unchanged except that one request was issued
and the page counter advanced. -/
theorem fetch_loop_retry (script : Nat → ApiOutcome) (api api_key profile_url : String)
    (mp fuel pc : Nat) (acc : List JVal) (token : JVal) (reqs : List Request)
    (h : pc < mp)
    (hc : classifyOutcome (pc + 1) acc (script reqs.length) = IterAction.retry) :
    fetch_loop script api api_key profile_url mp (fuel + 1) acc token pc reqs =
      fetch_loop script api api_key profile_url mp fuel acc token (pc + 1)
        (reqs ++ [mkRequest api api_key profile_url token]) := by
  simp only [fetch_loop, if_pos h]
  rw [hc]

/-- Unfolding the loop when the iteration breaks with accumulator `acc2`. -/
theorem fetch_loop_stop (script : Nat → ApiOutcome) (api api_key profile_url : String)
    (mp fuel pc : Nat) (acc acc2 : List JVal) (token : JVal) (reqs : List Request)
    (h : pc < mp)
    (hc : classifyOutcome (pc + 1) acc (script reqs.length) = IterAction.stop acc2) :
    fetch_loop script api api_key profile_url mp (fuel + 1) acc token pc reqs =
      { requests := reqs ++ [mkRequest api api_key profile_url token]
      , returned := some acc2 } := by
  simp only [fetch_loop, if_pos h]
  rw [hc]

/-- Unfolding the loop when the iteration raises an uncaught exception. -/
theorem fetch_loop_crash (script : Nat → ApiOutcome) (api api_key profile_url : String)
    (mp fuel pc : Nat) (acc : List JVal) (token : JVal) (reqs : List Request)
    (h : pc < mp)
    (hc : classifyOutcome (pc + 1) acc (script reqs.length) = IterAction.crash) :
    fetch_loop script api api_key profile_url mp (fuel + 1) acc token pc reqs =
      { requests := reqs ++ [mkRequest api api_key profile_url token]
      , returned := none } := by
  simp only [fetch_loop, if_pos h]
  rw [hc]

/-- Unfolding the loop when the iteration accumulated a page and moves
to the next one with the new pagination token. -/
theorem fetch_loop_next (script : Nat → ApiOutcome) (api api_key profile_url : String)
    (mp fuel pc : Nat) (acc acc2 : List JVal) (token tok2 : JVal) (reqs : List Request)
    (h : pc < mp)
    (hc : classifyOutcome (pc + 1) acc (script reqs.length) = IterAction.next acc2 tok2) :
    fetch_loop script api api_key profile_url mp (fuel + 1) acc token pc reqs =
      fetch_loop script api api_key profile_url mp fuel acc2 tok2 (pc + 1)
        (reqs ++ [mkRequest api api_key profile_url token]) := by
  simp only [fetch_loop, if_pos h]
  rw [hc]

/-- The loop only appends to its request log. -/
theorem fetch_loop_requests_extend (script : Nat → ApiOutcome)
    (api api_key profile_url : String) (mp : Nat) :
    ∀ (fuel : Nat) (acc : List JVal) (token : JVal) (pc : Nat) (reqs : List Request),
    ∃ t, (fetch_loop script api api_key profile_url mp fuel acc token pc reqs).requests
      = reqs ++ t := by
  intro fuel
  induction fuel with
  | zero => intro acc token pc reqs; exact ⟨[], by simp [fetch_loop]⟩
  | succ fuel ih =>
    intro acc token pc reqs
    by_cases h : pc < mp
    · cases hc : classifyOutcome (pc + 1) acc (script reqs.length) with
      | retry =>
        obtain ⟨t, ht⟩ := ih acc token (pc + 1) (reqs ++ [mkRequest api api_key profile_url token])
        exact ⟨[mkRequest api api_key profile_url token] ++ t, by
          rw [fetch_loop_retry script api api_key profile_url mp fuel pc acc token reqs h hc, ht,
            List.append_assoc]⟩
      | stop acc2 =>
        exact ⟨[mkRequest api api_key profile_url token], by
          rw [fetch_loop_stop script api api_key profile_url mp fuel pc acc acc2 token reqs h hc]⟩
      | crash =>
        exact ⟨[mkRequest api api_key profile_url token], by
          rw [fetch_loop_crash script api api_key profile_url mp fuel pc acc token reqs h hc]⟩
      | next acc2 tok2 =>
        obtain ⟨t, ht⟩ := ih acc2 tok2 (pc + 1) (reqs ++ [mkRequest api api_key profile_url token])
        exact ⟨[mkRequest api api_key profile_url token] ++ t, by
          rw [fetch_loop_next script api api_key profile_url mp fuel pc acc acc2 token tok2 reqs h hc,
            ht, List.append_assoc]⟩
    · exact ⟨[], by simp [fetch_loop, if_neg h]⟩

/-- Each loop iteration issues at most one request, so the log grows by
at most `fuel`. -/
theorem fetch_loop_len_le (script : Nat → ApiOutcome)
    (api api_key profile_url : String) (mp : Nat) :
    ∀ (fuel : Nat) (acc : List JVal) (token : JVal) (pc : Nat) (reqs : List Request),
    (fetch_loop script api api_key profile_url mp fuel acc token pc reqs).requests.length
      ≤ reqs.length + fuel := by
  intro fuel
  induction fuel with
  | zero => intro acc token pc reqs; simp [fetch_loop]
  | succ fuel ih =>
    intro acc token pc reqs
    by_cases h : pc < mp
    · cases hc : classifyOutcome (pc + 1) acc (script reqs.length) with
      | retry =>
        rw [fetch_loop_retry script api api_key profile_url mp fuel pc acc token reqs h hc]
        calc (fetch_loop script api api_key profile_url mp fuel acc token (pc + 1)
                (reqs ++ [mkRequest api api_key profile_url token])).requests.length
            ≤ (reqs ++ [mkRequest api api_key profile_url token]).length + fuel := ih _ _ _ _
          _ ≤ reqs.length + (fuel + 1) := by simp; omega
      | stop acc2 =>
        rw [fetch_loop_stop script api api_key profile_url mp fuel pc acc acc2 token reqs h hc]
        simp
      | crash =>
        rw [fetch_loop_crash script api api_key profile_url mp fuel pc acc token reqs h hc]
        simp
      | next acc2 tok2 =>
        rw [fetch_loop_next script api api_key profile_url mp fuel pc acc acc2 token tok2 reqs h hc]
        calc (fetch_loop script api api_key profile_url mp fuel acc2 tok2 (pc + 1)
                (reqs ++ [mkRequest api api_key profile_url token])).requests.length
            ≤ (reqs ++ [mkRequest api api_key profile_url token]).length + fuel := ih _ _ _ _
          _ ≤ reqs.length + (fuel + 1) := by simp; omega
    · simp [fetch_loop, if_neg h]

/-- When an iteration runs (`pc < mp`), the request it issues — at
position `reqs.length` of the final log — carries the current
pagination token. -/
theorem fetch_loop_first_request (script : Nat → ApiOutcome)
    (api api_key profile_url : String) (mp fuel pc : Nat) (acc : List JVal)
    (token : JVal) (reqs : List Request) (h : pc < mp) :
    (fetch_loop script api api_key profile_url mp (fuel + 1) acc token pc reqs).requests[reqs.length]?
      = some (mkRequest api api_key profile_url token) := by
  cases hc : classifyOutcome (pc + 1) acc (script reqs.length) with
  | retry =>
    rw [fetch_loop_retry script api api_key profile_url mp fuel pc acc token reqs h hc]
    obtain ⟨t, ht⟩ := fetch_loop_requests_extend script api api_key profile_url mp fuel acc token
      (pc + 1) (reqs ++ [mkRequest api api_key profile_url token])
    rw [ht, List.getElem?_append_left (by simp), List.getElem?_concat_length]
  | stop acc2 =>
    rw [fetch_loop_stop script api api_key profile_url mp fuel pc acc acc2 token reqs h hc]
    exact List.getElem?_concat_length reqs _
  | crash =>
    rw [fetch_loop_crash script api api_key profile_url mp fuel pc acc token reqs h hc]
    exact List.getElem?_concat_length reqs _
  | next acc2 tok2 =>
    rw [fetch_loop_next script api api_key profile_url mp fuel pc acc acc2 token tok2 reqs h hc]
    obtain ⟨t, ht⟩ := fetch_loop_requests_extend script api api_key profile_url mp fuel acc2 tok2
      (pc + 1) (reqs ++ [mkRequest api api_key profile_url token])
    rw [ht, List.getElem?_append_left (by simp), List.getElem?_concat_length]

/-- A decoded dict body whose lowercased message is `"ok"`, whose `data`
is a non-empty list, and whose paging metadata reads back a pagination
token: the iteration accumulates the page and either stops (falsy
token) or continues with the token. -/
theorem classifyOutcome_ok (pc1 : Nat) (acc : List JVal) (body : JVal) (m : String)
    (ds : List JVal) (tok : JVal)
    (hobj : body.isObj = true)
    (hmsg : body.getD "message" (JVal.jstr "Unknown error from API") = JVal.jstr m)
    (hok : lowerStr m = "ok")
    (hdata : body.getD "data" (JVal.jarr []) = JVal.jarr ds) (hds : ds ≠ [])
    (hpag : pyGetAttr (body.getD "paging" (JVal.jobj [])) "pagination_token" = some tok) :
    classifyOutcome pc1 acc (ApiOutcome.response body) =
      (if !tok.truthy then IterAction.stop (acc ++ ds) else IterAction.next (acc ++ ds) tok) := by
  cases body with
  | null => simp [JVal.isObj] at hobj
  | jbool b => simp [JVal.isObj] at hobj
  | jnum n => simp [JVal.isObj] at hobj
  | jstr s => simp [JVal.isObj] at hobj
  | jarr xs => simp [JVal.isObj] at hobj
  | jobj kvs =>
    simp only [classifyOutcome, hmsg, hok, hdata, hpag, pyIter]
    simp [hds, JVal.truthy]

/-- A decoded dict body whose message is not `"ok"` and mentions
`"rate limit"`: the iteration retries. -/
theorem classifyOutcome_rate_limited (pc1 : Nat) (acc : List JVal) (body : JVal) (m : String)
    (hobj : body.isObj = true)
    (hmsg : body.getD "message" (JVal.jstr "Unknown error from API") = JVal.jstr m)
    (hnotok : lowerStr m ≠ "ok")
    (hrl : containsStr (lowerStr m) "rate limit" = true) :
    classifyOutcome pc1 acc (ApiOutcome.response body) = IterAction.retry := by
  cases body with
  | null => simp [JVal.isObj] at hobj
  | jbool b => simp [JVal.isObj] at hobj
  | jnum n => simp [JVal.isObj] at hobj
  | jstr s => simp [JVal.isObj] at hobj
  | jarr xs => simp [JVal.isObj] at hobj
  | jobj kvs =>
    simp only [classifyOutcome, hmsg]
    simp [hnotok, hrl]

/-- An `okBody` response (status `"ok"`, non-empty data, no paging):
the iteration accumulates the page and stops. -/
theorem classifyOutcome_okBody (pc1 : Nat) (acc ds : List JVal) (hds : ds ≠ []) :
    classifyOutcome pc1 acc (ApiOutcome.response (okBody ds)) = IterAction.stop (acc ++ ds) := by
  cases ds with
  | nil => exact absurd rfl hds
  | cons x xs => rfl

/-- Three loop iterations under two timeouts followed by an `okBody`
success: three requests are issued (all with no pagination token) and
the success page is returned. -/
theorem fetch_loop_two_timeouts_then_ok (script : Nat → ApiOutcome)
    (api api_key profile_url : String) (k : Nat) (ds : List JVal) (hds : ds ≠ [])
    (h0 : script 0 = ApiOutcome.timeout) (h1 : script 1 = ApiOutcome.timeout)
    (h2 : script 2 = ApiOutcome.response (okBody ds)) :
    fetch_loop script api api_key profile_url (k + 3) (k + 3) [] JVal.null 0 [] =
      { requests := [mkRequest api api_key profile_url JVal.null,
                     mkRequest api api_key profile_url JVal.null,
                     mkRequest api api_key profile_url JVal.null]
      , returned := some ds } := by
  have c0 : classifyOutcome 1 [] (script ([] : List Request).length) = IterAction.retry := by
    rw [show ([] : List Request).length = 0 from rfl, h0]; rfl
  have c1 : classifyOutcome 2 []
      (script [mkRequest api api_key profile_url JVal.null].length) = IterAction.retry := by
    rw [show [mkRequest api api_key profile_url JVal.null].length = 1 from rfl, h1]; rfl
  have c2 : classifyOutcome 3 []
      (script [mkRequest api api_key profile_url JVal.null,
               mkRequest api api_key profile_url JVal.null].length)
      = IterAction.stop ([] ++ ds) := by
    rw [show [mkRequest api api_key profile_url JVal.null,
              mkRequest api api_key profile_url JVal.null].length = 2 from rfl, h2]
    exact classifyOutcome_okBody 3 [] ds hds
  calc fetch_loop script api api_key profile_url (k + 3) (k + 3) [] JVal.null 0 []
      = fetch_loop script api api_key profile_url (k + 3) (k + 2) [] JVal.null 1
          [mkRequest api api_key profile_url JVal.null] :=
        fetch_loop_retry script api api_key profile_url (k + 3) (k + 2) 0 [] JVal.null []
          (by omega) c0
    _ = fetch_loop script api api_key profile_url (k + 3) (k + 1) [] JVal.null 2
          [mkRequest api api_key profile_url JVal.null,
           mkRequest api api_key profile_url JVal.null] :=
        fetch_loop_retry script api api_key profile_url (k + 3) (k + 1) 1 [] JVal.null
          [mkRequest api api_key profile_url JVal.null] (by omega) c1
    _ = { requests := [mkRequest api api_key profile_url JVal.null,
                       mkRequest api api_key profile_url JVal.null,
                       mkRequest api api_key profile_url JVal.null]
        , returned := some ds } := by
        have := fetch_loop_stop script api api_key profile_url (k + 3) k 2 [] ([] ++ ds)
          JVal.null [mkRequest api api_key profile_url JVal.null,
                     mkRequest api api_key profile_url JVal.null] (by omega) c2
        simpa using this

/-!
## The claims
-/

/-- C1, counterexample.  The claim says that after two consecutive
timeouts followed by a success, exactly one request is counted against
the page limit ("the page counter advances by one, not three") and the
accumulated count equals the success response's count.  In the code,
`page_count += 1` runs at the top of every iteration, including retried
ones: with page limit 3 the run issues three requests (three slots
consumed, not one), and with page limit 2 the loop exhausts the limit on
the two timeouts and returns no records at all, although the success
response held one record. -/
theorem c1_counterexample :
    (fetch_all_posts c1script "https://www.linkedin.com/in/alice" "key" 3 "Profile Posts").requests.length = 3 ∧
    (3 : Nat) ≠ 1 ∧
    (fetch_all_posts c1script "https://www.linkedin.com/in/alice" "key" 2 "Profile Posts").returned = some [] ∧
    (some [] : Option (List JVal)) ≠ some [JVal.jnum 7] :=
  ⟨rfl, by decide, rfl, by simp⟩

/-- C1, amended.  A timeout retries the same iteration with the
accumulator and pagination token unchanged, but each timed-out attempt
consumes a page-limit slot.  For two timeouts followed by a success
(non-empty data, no further pages) the accumulated records equal exactly
the success response's records provided the page limit is at least 3,
and three requests — not one — are counted against the page limit. -/
theorem c1_theorem (script : Nat → ApiOutcome) (profile_url api_key post_type : String)
    (mp : Nat) (ds : List JVal) (h3 : 3 ≤ mp) (hds : ds ≠ [])
    (h0 : script 0 = ApiOutcome.timeout) (h1 : script 1 = ApiOutcome.timeout)
    (h2 : script 2 = ApiOutcome.response (okBody ds)) :
    (fetch_all_posts script profile_url api_key mp post_type).returned = some ds ∧
    (fetch_all_posts script profile_url api_key mp post_type).requests.length = 3 := by
  obtain ⟨k, hk⟩ := Nat.exists_eq_add_of_le' h3
  subst hk
  have hloop := fetch_loop_two_timeouts_then_ok script
    (if post_type = "Company Posts" then
      "https://fresh-linkedin-profile-data.p.rapidapi.com/get-company-posts"
    else
      "https://fresh-linkedin-profile-data.p.rapidapi.com/get-profile-posts")
    api_key profile_url k ds hds h0 h1 h2
  constructor
  · simp only [fetch_all_posts]; rw [hloop]
  · simp only [fetch_all_posts]; rw [hloop]; rfl

/-- C1, witness. -/
theorem c1_witness :
    (fetch_all_posts c1script "https://www.linkedin.com/in/alice" "key" 3 "Profile Posts").returned = some [JVal.jnum 7] ∧
    (fetch_all_posts c1script "https://www.linkedin.com/in/alice" "key" 3 "Profile Posts").requests.length = 3 :=
  c1_theorem c1script "https://www.linkedin.com/in/alice" "key" "Profile Posts" 3
    [JVal.jnum 7] (by decide) (List.cons_ne_nil _ _) rfl rfl rfl

/-- C2: for every simulated environment and every page limit of at
least one, `fetch_all_posts` issues at most `max_pages` requests: the
loop cannot outlive the page counter reaching the limit. -/
theorem c2_theorem (script : Nat → ApiOutcome) (profile_url api_key : String)
    (max_pages : Nat) (post_type : String) (h : 1 ≤ max_pages) :
    (fetch_all_posts script profile_url api_key max_pages post_type).requests.length
      ≤ max_pages := by
  simp only [fetch_all_posts]
  simpa using fetch_loop_len_le script _ api_key profile_url max_pages max_pages [] JVal.null 0 []

/-- C2, witness. -/
theorem c2_witness :
    (fetch_all_posts c1script "https://www.linkedin.com/in/alice" "key" 2 "Profile Posts").requests.length ≤ 2 :=
  c2_theorem c1script "https://www.linkedin.com/in/alice" "key" 2 "Profile Posts" (by decide)

/-- C3, counterexample.  The claim says a rate-limited response is
retried "without advancing the page counter", not consuming a
page-limit slot.  In the code the counter was already incremented when
the response arrives: with page limit 1 the rate-limited attempt
consumes the only slot, the loop exits with one request issued and no
records, and no retry request is ever made — although the very next
response (page limit 2) would have delivered a record. -/
theorem c3_counterexample :
    (fetch_all_posts c3script "https://www.linkedin.com/in/alice" "key" 1 "Profile Posts").requests.length = 1 ∧
    (fetch_all_posts c3script "https://www.linkedin.com/in/alice" "key" 1 "Profile Posts").returned = some [] ∧
    (fetch_all_posts c3script "https://www.linkedin.com/in/alice" "key" 2 "Profile Posts").returned = some [JVal.jnum 7] :=
  ⟨rfl, rfl, rfl⟩

/-- C3, amended.  On a response whose status message is not `"ok"` and
mentions `"rate limit"`, the loop waits and retries the same iteration —
the accumulator and the pagination cursor are unchanged — but the
rate-limited attempt does consume a page-limit slot: the page counter
advances by one and the attempt's request stays counted in the log. -/
theorem c3_theorem (script : Nat → ApiOutcome) (api api_key profile_url : String)
    (mp fuel pc : Nat) (acc : List JVal) (token : JVal) (reqs : List Request)
    (body : JVal) (m : String)
    (hpc : pc < mp)
    (hs : script reqs.length = ApiOutcome.response body)
    (hobj : body.isObj = true)
    (hmsg : body.getD "message" (JVal.jstr "Unknown error from API") = JVal.jstr m)
    (hnotok : lowerStr m ≠ "ok")
    (hrl : containsStr (lowerStr m) "rate limit" = true) :
    fetch_loop script api api_key profile_url mp (fuel + 1) acc token pc reqs =
      fetch_loop script api api_key profile_url mp fuel acc token (pc + 1)
        (reqs ++ [mkRequest api api_key profile_url token]) :=
  fetch_loop_retry script api api_key profile_url mp fuel pc acc token reqs hpc
    (by rw [hs]; exact classifyOutcome_rate_limited (pc + 1) acc body m hobj hmsg hnotok hrl)

/-- C3, witness. -/
theorem c3_witness :
    fetch_loop c3script "api" "key" "u" 1 1 [] JVal.null 0 [] =
      fetch_loop c3script "api" "key" "u" 1 0 [] JVal.null 1
        [mkRequest "api" "key" "u" JVal.null] :=
  c3_theorem c3script "api" "key" "u" 1 0 0 [] JVal.null [] rateLimitBody
    "Rate limit exceeded" (by decide) rfl rfl rfl (by decide) (by decide)

/-- C7: on a non-timeout transport error or a response-decode error at
any iteration of the loop, the loop terminates at once — the failing
request is the last one issued, no retry happens — and whatever was
accumulated so far is returned normally (no exception escapes:
`returned` is `some`). -/
theorem c7_theorem (script : Nat → ApiOutcome) (api api_key profile_url : String)
    (mp fuel pc : Nat) (acc : List JVal) (token : JVal) (reqs : List Request)
    (hpc : pc < mp)
    (hout : script reqs.length = ApiOutcome.transportError ∨
            script reqs.length = ApiOutcome.decodeError) :
    fetch_loop script api api_key profile_url mp (fuel + 1) acc token pc reqs =
      { requests := reqs ++ [mkRequest api api_key profile_url token]
      , returned := some acc } := by
  rcases hout with h | h
  · exact fetch_loop_stop script api api_key profile_url mp fuel pc acc acc token reqs hpc
      (by rw [h]; rfl)
  · exact fetch_loop_stop script api api_key profile_url mp fuel pc acc acc token reqs hpc
      (by rw [h]; rfl)

/-- C7, witness. -/
theorem c7_witness :
    fetch_loop c7script "api" "key" "u" 1 1 [JVal.jnum 5] JVal.null 0 [] =
      { requests := [mkRequest "api" "key" "u" JVal.null]
      , returned := some [JVal.jnum 5] } :=
  c7_theorem c7script "api" "key" "u" 1 0 0 [JVal.jnum 5] JVal.null [] (by decide) (Or.inl rfl)

/-- C4, counterexample.  The claim says that after an `"ok"` response
with non-empty data and a pagination cursor the Fetcher issues a next
request carrying that cursor.  With page limit 1 the response carries
the cursor `"TOK"`, yet the loop exits at the page limit: exactly one
request was issued, and it carried no pagination token at all. -/
theorem c4_counterexample :
    (fetch_all_posts c4script "https://www.linkedin.com/in/alice" "key" 1 "Profile Posts").requests.length = 1 ∧
    (fetch_all_posts c4script "https://www.linkedin.com/in/alice" "key" 1 "Profile Posts").requests.map Request.pagination_token = [none] ∧
    (fetch_all_posts c4script "https://www.linkedin.com/in/alice" "key" 1 "Profile Posts").returned = some [JVal.jnum 7] :=
  ⟨rfl, rfl, rfl⟩

/-- C4, amended.  Suppose the current iteration (page counter `pc`,
still below the limit, with loop fuel as `fetch_all_posts` maintains it)
receives a decoded dict response whose lowercased message is `"ok"`,
whose data is a non-empty list `ds`, and whose paging metadata holds the
cursor `tok`.  If the cursor is truthy and the page limit allows another
iteration, the next request — at position `reqs.length + 1` of the
request log — carries exactly that cursor; if the cursor is falsy, the
loop stops and returns everything accumulated including this page. -/
theorem c4_theorem (script : Nat → ApiOutcome) (api api_key profile_url : String)
    (mp fuel pc : Nat) (acc : List JVal) (token : JVal) (reqs : List Request)
    (body : JVal) (m : String) (ds : List JVal) (tok : JVal)
    (hfuel : fuel = mp - pc) (hpc : pc < mp)
    (hs : script reqs.length = ApiOutcome.response body)
    (hobj : body.isObj = true)
    (hmsg : body.getD "message" (JVal.jstr "Unknown error from API") = JVal.jstr m)
    (hok : lowerStr m = "ok")
    (hdata : body.getD "data" (JVal.jarr []) = JVal.jarr ds)
    (hds : ds ≠ [])
    (hpag : pyGetAttr (body.getD "paging" (JVal.jobj [])) "pagination_token" = some tok) :
    (tok.truthy = true → pc + 1 < mp →
      (fetch_loop script api api_key profile_url mp fuel acc token pc reqs).requests[reqs.length + 1]?
        = some (mkRequest api api_key profile_url tok)) ∧
    (tok.truthy = false →
      fetch_loop script api api_key profile_url mp fuel acc token pc reqs =
        { requests := reqs ++ [mkRequest api api_key profile_url token]
        , returned := some (acc ++ ds) }) := by
  have hcl : classifyOutcome (pc + 1) acc (script reqs.length) =
      (if !tok.truthy then IterAction.stop (acc ++ ds) else IterAction.next (acc ++ ds) tok) := by
    rw [hs]
    exact classifyOutcome_ok (pc + 1) acc body m ds tok hobj hmsg hok hdata hds hpag
  obtain ⟨f, hf⟩ : ∃ f, fuel = f + 1 := ⟨fuel - 1, by omega⟩
  subst hf
  constructor
  · intro htok hpc2
    have hcl' : classifyOutcome (pc + 1) acc (script reqs.length)
        = IterAction.next (acc ++ ds) tok := by rw [hcl, htok]; rfl
    rw [fetch_loop_next script api api_key profile_url mp f pc acc (acc ++ ds) token tok reqs
      hpc hcl']
    obtain ⟨f2, hf2⟩ : ∃ f2, f = f2 + 1 := ⟨f - 1, by omega⟩
    subst hf2
    have := fetch_loop_first_request script api api_key profile_url mp f2 (pc + 1) (acc ++ ds)
      tok (reqs ++ [mkRequest api api_key profile_url token]) hpc2
    simpa using this
  · intro htok
    have hcl' : classifyOutcome (pc + 1) acc (script reqs.length)
        = IterAction.stop (acc ++ ds) := by rw [hcl, htok]; rfl
    exact fetch_loop_stop script api api_key profile_url mp f pc acc (acc ++ ds) token reqs
      hpc hcl'

/-- C4, witness. -/
theorem c4_witness :
    ((JVal.jstr "TOK").truthy = true → 1 < 2 →
      (fetch_loop c4script "api" "key" "u" 2 2 [] JVal.null 0 []).requests[1]?
        = some (mkRequest "api" "key" "u" (JVal.jstr "TOK"))) ∧
    ((JVal.jstr "TOK").truthy = false →
      fetch_loop c4script "api" "key" "u" 2 2 [] JVal.null 0 [] =
        { requests := [mkRequest "api" "key" "u" JVal.null]
        , returned := some [JVal.jnum 7] }) :=
  c4_theorem c4script "api" "key" "u" 2 2 0 [] JVal.null []
    (okBodyTok [JVal.jnum 7] (JVal.jstr "TOK")) "ok" [JVal.jnum 7] (JVal.jstr "TOK")
    rfl (by decide) rfl rfl rfl rfl rfl (List.cons_ne_nil _ _) rfl

/-!
## Helper lemmas: the normalizer
-/

/-- The produced record's field names do not depend on the input. -/
theorem mkRecord_keys (v : PostVals) : (mkRecord v).map Prod.fst = excelFieldNames := rfl

/-- Reading the author-name field of a produced record. -/
theorem getField_author_name (v : PostVals) :
    getField (mkRecord v) "Content Author Name"
      = some (JVal.jstr (v.author_first_s ++ " " ++ v.author_last_s)) := rfl

/-- `(x or '')` on a string value never raises and yields the string
itself (falsy strings are exactly `''`). -/
theorem pyOrEmptyStr_jstr (f : String) : pyOrEmptyStr (JVal.jstr f) = some f := by
  by_cases h : f = ""
  · subst h; rfl
  · simp [pyOrEmptyStr, JVal.truthy, h, asStr]

/-- `(x or '')` on an absent value yields the empty string. -/
theorem pyOrEmptyStr_null : pyOrEmptyStr JVal.null = some "" := rfl

/-- `(x or '')` on a first-name value produced by the URL fallback. -/
theorem pyOrEmptyStr_ite (c : Prop) [Decidable c] (a : String) :
    pyOrEmptyStr (if c then JVal.null else JVal.jstr a) = some (if c then "" else a) := by
  by_cases h : c
  · simp [h, pyOrEmptyStr, JVal.truthy]
  · simp [h, pyOrEmptyStr_jstr]

/-- Lines 145-150 are skipped entirely when the record carries no
truthy author URL. -/
theorem author_name_headline_no_source_url (first last headline url : JVal)
    (h : url.truthy = false) :
    author_name_headline first last headline url = some (first, headline) := by
  simp [author_name_headline, h]

/-- Lines 145-150 on a record with no poster names, no headline, and a
non-empty author URL string: the first name becomes the URL-derived
segment when one is found, and the headline defaults to
`"Company Page"` exactly when the URL contains the substring
`"company"`. -/
theorem author_name_headline_nulls (u : String) (hu : u ≠ "") :
    author_name_headline JVal.null JVal.null JVal.null (JVal.jstr u) =
      some (if get_profile_name_from_url u ≠ "UnknownProfile"
              then JVal.jstr (get_profile_name_from_url u) else JVal.null,
            if containsStr u "company" then JVal.jstr "Company Page" else JVal.null) := by
  have hu' : (u != "") = true := by simp [hu]
  simp [author_name_headline, JVal.truthy, hu', asStr]

/-- C5, counterexample.  The claim says missing source data yields the
absent marker `None` for the affected field.  For the empty input
record every piece of source data is missing, yet the
`"Content Author Name"` field holds the single-space string, not
`None`: the concatenation `(first or '') + ' ' + (last or '')` can
never produce `None`. -/
theorem c5_counterexample :
    (processPost "q" (JVal.jobj [])).bind (fun r => getField r "Content Author Name")
      = some (JVal.jstr " ") ∧
    JVal.jstr " " ≠ JVal.null :=
  ⟨rfl, fun h => JVal.noConfusion h⟩

/-- C5, amended.  Every record the normalizer produces has exactly the
fixed field set, in order; and on the empty input record (all source
data missing) every field except `"Post Type"` and
`"Content Author Name"` holds the absent marker `None` — those two are
always strings, the author name being the single-space concatenation
when both names are missing. -/
theorem c5_theorem (q : String) (post : JVal) (rec : List (String × JVal))
    (h : processPost q post = some rec) :
    rec.map Prod.fst = excelFieldNames ∧
    ((processPost q (JVal.jobj [])).getD []).all
      (fun kv => kv.1 == "Post Type" || kv.1 == "Content Author Name" || isNull kv.2)
      = true := by
  constructor
  · obtain ⟨v, _hv, hrec⟩ := Option.map_eq_some'.mp h
    rw [← hrec]; exact mkRecord_keys v
  · rfl

/-- C5, witness. -/
theorem c5_witness :
    (mkRecord c5vals).map Prod.fst = excelFieldNames ∧
    ((processPost "q" (JVal.jobj [])).getD []).all
      (fun kv => kv.1 == "Post Type" || kv.1 == "Content Author Name" || isNull kv.2)
      = true :=
  c5_theorem "q" (JVal.jobj []) (mkRecord c5vals) rfl

/-- C6: on the reshare with `repost_urn = "999"` and a post URL without
the `"urn:li:activity:"` marker, the normalizer's local
`activity_urn_str` does fall back to `"999"` — but the produced output
record does not capture it: a record is produced, and none of its values
is the string `"999"` (the local is never read by the record literal). -/
theorem c6_theorem :
    (postVals "alice" post6).map PostVals.activity_urn_str = some (JVal.jstr "999") ∧
    (processPost "alice" post6).isSome = true ∧
    ((processPost "alice" post6).getD []).all (fun kv => !(isStr999 kv.2)) = true :=
  ⟨rfl, rfl, rfl⟩

/-- C10: whenever the normalizer produces a record for a dict input, the
`"Content Author Name"` field is a string of the form
`first ++ " " ++ last` — it always contains the separator — and in
particular for the empty record (no names, no fallback source) it is
exactly the single-space string, not the `None` used by other missing
fields. -/
theorem c10_theorem (q : String) (post : JVal) (rec : List (String × JVal))
    (h : processPost q post = some rec) :
    (∃ f l, getField rec "Content Author Name" = some (JVal.jstr (f ++ " " ++ l))) ∧
    (processPost q (JVal.jobj [])).bind (fun r => getField r "Content Author Name")
      = some (JVal.jstr " ") := by
  constructor
  · obtain ⟨v, _hv, hrec⟩ := Option.map_eq_some'.mp h
    exact ⟨v.author_first_s, v.author_last_s, by rw [← hrec]; exact getField_author_name v⟩
  · rfl

/-- C10, witness. -/
theorem c10_witness :
    (∃ f l, getField (mkRecord c5vals) "Content Author Name"
      = some (JVal.jstr (f ++ " " ++ l))) ∧
    (processPost "q" (JVal.jobj [])).bind (fun r => getField r "Content Author Name")
      = some (JVal.jstr " ") :=
  c10_theorem "q" (JVal.jobj []) (mkRecord c5vals) rfl

/-- C8: a record whose poster sub-structure supplies only a first name
(no last name) yields a `"Content Author Name"` equal to the first name
followed by the single separator space and nothing else — the
concatenation rule `(first or '') + ' ' + (last or '')` with the empty
string standing in for the absent last name. -/
theorem c8_theorem (q f : String) :
    (processPost q (JVal.jobj [("poster", JVal.jobj [("first", JVal.jstr f)])])).bind
      (fun r => getField r "Content Author Name") = some (JVal.jstr (f ++ " ")) := by
  by_cases hf : f = ""
  · subst hf; rfl
  · have hf' : (f != "") = true := by simp [hf]
    simp [processPost, postVals, authorVals, author_name_headline, imageField, mediaVals,
      repostStatsVals, activity_from_post, JVal.getD, JVal.get, jlookup, pyOr, pyIter,
      pyGetAttr, pyOrEmptyStr, asStr, JVal.truthy, JVal.isObj, mkRecord, getField, hf',
      String.append_empty]

/-- C9, counterexample.  The claim says the headline defaults to
`"Company Page"` exactly when the derived URL marks a company page.
The URL here matches the profile pattern (`/in/`), so by the
identifier-extraction rule it marks a profile, not a company page —
the derived display name is its `/in/` segment `"mycompany"` — yet the
headline defaults to `"Company Page"`, because the code only tests for
the substring `"company"` anywhere in the URL. -/
theorem c9_counterexample :
    extractSegAfter "/in/".toList "https://www.linkedin.com/in/mycompany".toList
      = some "mycompany".toList ∧
    get_profile_name_from_url "https://www.linkedin.com/in/mycompany" = "mycompany" ∧
    (processPost "q" post9).bind (fun r => getField r "Content Author Name")
      = some (JVal.jstr "mycompany ") ∧
    (processPost "q" post9).bind (fun r => getField r "Content Author Headline")
      = some (JVal.jstr "Company Page") :=
  ⟨rfl, rfl, rfl, rfl⟩

/-- C9, amended.  On a record with no poster names, no headline, and a
non-empty author URL: the first name falls back to the URL-derived
segment when the extraction finds one (else stays empty), and the
headline defaults to `"Company Page"` exactly when the URL contains the
substring `"company"` anywhere — not only when the URL is a company
page. -/
theorem c9_theorem (q u : String) (hu : u ≠ "") :
    (processPost q (JVal.jobj [("poster_linkedin_url", JVal.jstr u)])).bind
      (fun r => getField r "Content Author Headline")
      = some (if containsStr u "company" then JVal.jstr "Company Page" else JVal.null) ∧
    (processPost q (JVal.jobj [("poster_linkedin_url", JVal.jstr u)])).bind
      (fun r => getField r "Content Author Name")
      = some (JVal.jstr ((if get_profile_name_from_url u ≠ "UnknownProfile"
          then get_profile_name_from_url u else "") ++ " ")) := by
  have ha := author_name_headline_nulls u hu
  constructor
  · simp [processPost, postVals, authorVals, ha, pyOrEmptyStr_ite, pyOrEmptyStr_null,
      imageField, mediaVals, repostStatsVals, activity_from_post, JVal.getD, JVal.get,
      jlookup, pyOr, pyIter, pyGetAttr, JVal.truthy, JVal.isObj, mkRecord, getField,
      String.append_empty]
  · simp [processPost, postVals, authorVals, ha, pyOrEmptyStr_ite, pyOrEmptyStr_null,
      imageField, mediaVals, repostStatsVals, activity_from_post, JVal.getD, JVal.get,
      jlookup, pyOr, pyIter, pyGetAttr, JVal.truthy, JVal.isObj, mkRecord, getField,
      String.append_empty]

/-- C9, witness. -/
theorem c9_witness :
    (processPost "q" post9).bind (fun r => getField r "Content Author Headline")
      = some (JVal.jstr "Company Page") ∧
    (processPost "q" post9).bind (fun r => getField r "Content Author Name")
      = some (JVal.jstr "mycompany ") :=
  c9_theorem "q" "https://www.linkedin.com/in/mycompany" (by decide)
